import Mathlib

/-!
Verification of the single-switch device handler (switch-single.js):
shallow embedding of its cache reconciliation (applyUpdate), command path
(internalStateUpdate), poll handler (requestUpdate) and push handler
(receiveUpdate), with theorems settling the specification claims.

Numbers: raw telemetry integers are modelled as ℤ; the scaled values the
handler writes to characteristics are modelled as exact rationals ℚ
(the concrete values involved are exactly representable, so the JS float
arithmetic agrees with ℚ on every comparison performed here).
-/

/-- JS Math.round: round half toward positive infinity, so floor of the
argument plus one half. -/
def jsRound (q : ℚ) : ℤ := Rat.floor (q + 1 / 2)

/-- Power value written to the consumption characteristic:
`Math.round(newPower / 10) / 100` in the source. -/
def scaledPower (p : ℤ) : ℚ := (jsRound ((p : ℚ) / 10) : ℚ) / 100

/-- Voltage value written to the voltage characteristic:
`Math.round(newVoltage * 10) / 100` in the source. -/
def scaledVoltage (v : ℤ) : ℚ := (jsRound ((v : ℚ) * 10) : ℚ) / 100

/-- Per-device configuration: the configured in-use power threshold
(`this.inUsePowerThreshold`). -/
structure Config where
  inUsePowerThreshold : ℚ

/-- The mutable per-device cache fields of the handler instance
(`this.cacheState`, `this.cachePower`, `this.cacheVoltage`,
`this.cacheInUse`, `this.isToggleX`).  Fields that start out as JS
`undefined` are modelled with `Option` (`none` = undefined). -/
structure DeviceState where
  cacheState : Bool
  cachePower : Option ℤ
  cacheVoltage : Option ℤ
  cacheInUse : Bool
  isToggleX : Option Bool
deriving DecidableEq, Repr

/-- A loosely structured telemetry fragment passed to `applyUpdate`:
any subset of `onoff`, `power`, `voltage` may be present
(`hasProperty(data, ...)` in the source). -/
structure Fragment where
  onoff : Option ℤ := none
  power : Option ℤ := none
  voltage : Option ℤ := none
deriving DecidableEq, Repr

/-- The externally visible characteristic a notification targets. -/
inductive NotifKind
  | on
  | consumption
  | outletInUse
  | voltage
deriving DecidableEq, Repr

/-- One `updateCharacteristic` call made by the handler. -/
inductive Notif
  | on (b : Bool)
  | consumption (w : ℚ)
  | outletInUse (b : Bool)
  | voltage (v : ℚ)
deriving DecidableEq, Repr

/-- The characteristic a notification targets. -/
def Notif.kind : Notif → NotifKind
  | .on _ => .on
  | .consumption _ => .consumption
  | .outletInUse _ => .outletInUse
  | .voltage _ => .voltage

/-- Number of notifications in `ns` that target characteristic `k`. -/
def countKind (ns : List Notif) (k : NotifKind) : ℕ :=
  (ns.filter (fun n => decide (n.kind = k))).length

/-- The `onoff` block of `applyUpdate` (lines 270 to 285):
convert `data.onoff === 1` to a boolean, compare raw against the cached
state, and on a change update the characteristic, the cache and the Eve
history (`{ status: this.cacheState ? 1 : 0 }`). -/
def applyOnoff (s : DeviceState) : Option ℤ → DeviceState × List Notif × List ℤ
  | none => (s, [], [])
  | some onoff =>
    let newState := onoff == 1
    if s.cacheState ≠ newState then
      (({ s with cacheState := newState } : DeviceState), [Notif.on newState],
        [if newState then 1 else 0])
    else (s, [], [])

/-- The `power` block of `applyUpdate` (lines 286 to 307): compare the raw
reading against the raw cached value; on a change emit the scaled
consumption value, store the raw value, and recompute
`newInUse = this.cacheState && scaledPower > this.inUsePowerThreshold`;
then notify `OutletInUse` only if `newInUse` differs from the cache. -/
def applyPower (cfg : Config) (s : DeviceState) : Option ℤ → DeviceState × List Notif
  | none => (s, [])
  | some newPower =>
    let step :=
      if s.cachePower ≠ some newPower then
        (({ s with cachePower := some newPower } : DeviceState),
          [Notif.consumption (scaledPower newPower)],
          s.cacheState && decide (scaledPower newPower > cfg.inUsePowerThreshold))
      else (s, ([] : List Notif), s.cacheInUse)
    if step.1.cacheInUse ≠ step.2.2 then
      ({ step.1 with cacheInUse := step.2.2 }, step.2.1 ++ [Notif.outletInUse step.2.2])
    else (step.1, step.2.1)

/-- The `voltage` block of `applyUpdate` (lines 308 to 321): compare the
raw reading against the raw cached value; on a change emit the scaled
voltage and store the raw value. -/
def applyVoltage (s : DeviceState) : Option ℤ → DeviceState × List Notif
  | none => (s, [])
  | some newVoltage =>
    if s.cacheVoltage ≠ some newVoltage then
      (({ s with cacheVoltage := some newVoltage } : DeviceState),
        [Notif.voltage (scaledVoltage newVoltage)])
    else (s, [])

/-- Result of one `applyUpdate` call: the new cache, the
`updateCharacteristic` calls made, and the Eve history entries added. -/
structure ApplyResult where
  state : DeviceState
  notifs : List Notif
  history : List ℤ
deriving DecidableEq, Repr

/-- `applyUpdate(data)` (lines 268 to 322): the three field blocks run in
order on the shared mutable state. -/
def applyUpdate (cfg : Config) (s : DeviceState) (data : Fragment) : ApplyResult :=
  let r1 := applyOnoff s data.onoff
  let r2 := applyPower cfg r1.1 data.power
  let r3 := applyVoltage r2.1 data.voltage
  { state := r3.1, notifs := r1.2.1 ++ r2.2 ++ r3.2, history := r1.2.2 }

/-- Fold a sequence of fragments through `applyUpdate`. -/
def applySeq (cfg : Config) (s : DeviceState) : List Fragment → DeviceState
  | [] => s
  | d :: ds => applySeq cfg (applyUpdate cfg s d).state ds

/-- Whether a present `onoff` value differs (after the `=== 1` conversion)
from the cached boolean state. -/
def onoffDiffers (cache : Bool) : Option ℤ → Bool
  | some v => cache != (v == 1)
  | none => false

/-- Whether a present raw reading differs from the raw cached value. -/
def optDiffers (cache : Option ℤ) : Option ℤ → Bool
  | some x => cache != some x
  | none => false

/-- The last commanded boolean carried by a fragment sequence, starting
from an initial cache value. -/
def lastCommanded (init : Bool) (ds : List Fragment) : Bool :=
  ds.foldl (fun acc d => match d.onoff with | some v => (v == 1) | none => acc) init

/-- The last raw reading selected by `get` in a fragment sequence,
starting from an initial cache value. -/
def lastReading (init : Option ℤ) (get : Fragment → Option ℤ) (ds : List Fragment) : Option ℤ :=
  ds.foldl (fun acc d => match get d with | some x => some x | none => acc) init

/-- Wire command payload: `togglex` carries a channel, `toggle` does not. -/
inductive CmdPayload
  | togglex (onoff : ℤ) (channel : ℤ)
  | toggle (onoff : ℤ)
deriving DecidableEq, Repr

/-- An outbound command as passed to `platform.sendUpdate`. -/
structure Command where
  nspace : String
  payload : CmdPayload
deriving DecidableEq, Repr

/-- The command construction inside `internalStateUpdate` (lines 110 to
127): `if (this.isToggleX)` is truthy only when the field holds `true`
(it is only ever assigned booleans; `none` models JS undefined). -/
def buildCommand (isToggleX : Option Bool) (value : Bool) : Command :=
  match isToggleX with
  | some true =>
    { nspace := "Appliance.Control.ToggleX"
      payload := CmdPayload.togglex (if value then 1 else 0) 0 }
  | _ =>
    { nspace := "Appliance.Control.Toggle"
      payload := CmdPayload.toggle (if value then 1 else 0) }

/-- Outcome of the queued `sendUpdate` task: success, transport error, or
the queue timeout (`TimeoutError` after 10s). -/
inductive SendOutcome
  | ok
  | err (msg : String)
  | timeout
deriving DecidableEq, Repr

/-- Result of one `internalStateUpdate(value)` call: the cache afterwards,
the commands actually sent, the Eve history entries, the delayed
characteristic revert scheduled by the catch block (delay ms, value), and
the HAP status error surfaced to the caller. -/
structure CmdResult where
  state : DeviceState
  sent : List Command
  history : List ℤ
  revert : Option (ℕ × Bool)
  hapError : Option ℤ
deriving DecidableEq, Repr

/-- `internalStateUpdate(value)` (lines 97 to 153): inside the queued task,
return early when `value === this.cacheState`; otherwise build the
command from `this.isToggleX` and send it.  On success update the cache
and add a history entry.  On any failure (transport error or queue
timeout) the cache mutation never ran; the catch block schedules
`updateCharacteristic(On, this.cacheState)` after 2000 ms and throws the
HAP status error -70402.  No retry is issued. -/
def internalStateUpdate (s : DeviceState) (value : Bool) (outcome : SendOutcome) : CmdResult :=
  if value = s.cacheState then
    { state := s, sent := [], history := [], revert := none, hapError := none }
  else
    let cmd := buildCommand s.isToggleX value
    match outcome with
    | SendOutcome.ok =>
      { state := { s with cacheState := value }, sent := [cmd]
        history := [if value then 1 else 0], revert := none, hapError := none }
    | _ =>
      { state := s, sent := [cmd], history := []
        revert := some (2000, s.cacheState), hapError := some (-70402) }

/-- The digest part of a poll payload (`data.all.digest`) or of a push
payload: an optional `togglex` array and an optional `toggle` object. -/
structure DigestShape where
  togglex : Option (List Fragment) := none
  toggle : Option Fragment := none
deriving DecidableEq, Repr

/-- `data.all.system.hardware`. -/
structure HardwareShape where
  macAddress : String
  version : String
deriving DecidableEq, Repr

/-- `data.all.system.firmware`. -/
structure FirmwareShape where
  innerIp : String
  version : String
deriving DecidableEq, Repr

/-- `data.all.system`: each sub-object may be absent.  `online` models the
`online` object by its `status` field (`none` = object absent). -/
structure SystemShape where
  hardware : Option HardwareShape := none
  firmware : Option FirmwareShape := none
  online : Option ℤ := none
deriving DecidableEq, Repr

/-- `data.all`. -/
structure AllShape where
  digest : Option DigestShape := none
  system : Option SystemShape := none
deriving DecidableEq, Repr

/-- The payload of a full-state poll response (`res.data.payload`). -/
structure PollResponse where
  all : Option AllShape := none
deriving DecidableEq, Repr

/-- The accessory context fields touched by the poll path
(`this.accessory.context.*`); `none` models JS undefined. -/
structure AccessoryCtx where
  macAddress : Option String := none
  hardware : Option String := none
  ipAddress : Option String := none
  firmware : Option String := none
  isOnline : Option Bool := none
deriving DecidableEq, Repr

/-- JS truthiness of the possibly-undefined `context.isOnline`. -/
def optTruthy (o : Option Bool) : Bool := o == some true

/-- Does the first character list begin with the second one? -/
def beginsWith : List Char → List Char → Bool
  | _, [] => true
  | [], _ :: _ => false
  | a :: as, b :: bs => a == b && beginsWith as bs

/-- Does the first character list contain the second as a contiguous
run? -/
def includesList : List Char → List Char → Bool
  | [], needle => needle.isEmpty
  | a :: t, needle => beginsWith (a :: t) needle || includesList t needle

/-- JS `haystack.includes(needle)` on strings. -/
def includesStr (haystack needle : String) : Bool :=
  includesList haystack.toList needle.toList

/-- The connectivity failure signatures checked by the poll catch block:
`[ EHOSTUNREACH , timed out ].some((el) => eText.includes(el))`. -/
def matchesConnectFailure (eText : String) : Bool :=
  ["EHOSTUNREACH", "timed out"].any (fun el => includesStr eText el)

/-- The catch block of `requestUpdate` (lines 232 to 246): set the context
online flag to false and push one accessory update only when the error
text carries a connectivity signature and the device was online (truthy)
or this is the first run.  Returns the new context and whether
`updateAccessory` was called. -/
def handlePollFailure (firstRun : Bool) (ctx : AccessoryCtx) (eText : String) :
    AccessoryCtx × Bool :=
  if (optTruthy ctx.isOnline || firstRun) && matchesConnectFailure eText then
    ({ ctx with isOnline := some false }, true)
  else (ctx, false)

/-- The message of the TypeError raised when line 218 reads
`data.all.system.online` while `data.all.system` is undefined. -/
def undefinedOnlineMsg : String :=
  "Cannot read properties of undefined (reading online)"

/-- Result of one `requestUpdate` run: the cache and context afterwards,
the characteristic updates and history entries from `applyUpdate`, whether
`platform.updateAccessory` was called, and the error (if any) that ended
the run in the catch block. -/
structure PollOutcome where
  state : DeviceState
  ctx : AccessoryCtx
  notifs : List Notif
  history : List ℤ
  updated : Bool
  error : Option String
deriving DecidableEq, Repr

/-- The body of the queued task in `requestUpdate` (lines 178 to 230),
given a successfully received response payload.  The digest section runs
first and resolves `this.isToggleX` from the response shape on every run;
the system section is guarded by `if (data.all.system)` for hardware and
firmware, but line 218 then reads `data.all.system.online` unguarded, so
a payload with `all` present and `system` absent raises a TypeError at
that point (modelled by the `error` field; the mutations already made are
kept, as in JS). -/
def pollSuccessHandler (cfg : Config) (firstRun : Bool) (s : DeviceState)
    (ctx : AccessoryCtx) (resp : PollResponse) : PollOutcome :=
  match resp.all with
  | none =>
    { state := s, ctx := ctx, notifs := [], history := [], updated := false, error := none }
  | some allData =>
    let r1 :=
      match allData.digest with
      | none => (s, ([] : List Notif), ([] : List ℤ))
      | some dg =>
        match dg.togglex with
        | some (f :: _) =>
          let r := applyUpdate cfg { s with isToggleX := some true } f
          (r.state, r.notifs, r.history)
        | _ =>
          match dg.toggle with
          | some f =>
            let r := applyUpdate cfg { s with isToggleX := some false } f
            (r.state, r.notifs, r.history)
          | none => (s, [], [])
    let sysStep :=
      match allData.system with
      | none => (ctx, false)
      | some sys =>
        let ctxa :=
          if firstRun then
            match sys.hardware with
            | some hw =>
              { ctx with macAddress := some hw.macAddress.toUpper
                         hardware := some hw.version }
            | none => ctx
          else ctx
        match sys.firmware with
        | some fw =>
          let ipStep :=
            if ctxa.ipAddress ≠ some fw.innerIp then
              (({ ctxa with ipAddress := some fw.innerIp } : AccessoryCtx), true)
            else (ctxa, false)
          if firstRun then
            ({ ipStep.1 with firmware := some fw.version }, ipStep.2)
          else ipStep
        | none => (ctxa, false)
    match allData.system with
    | none =>
      { state := r1.1, ctx := sysStep.1, notifs := r1.2.1, history := r1.2.2
        updated := false, error := some undefinedOnlineMsg }
    | some sys =>
      let onlineStep :=
        match sys.online with
        | some st =>
          let isOnline := st == 1
          if sysStep.1.isOnline ≠ some isOnline then
            (({ sysStep.1 with isOnline := some isOnline } : AccessoryCtx), true)
          else (sysStep.1, sysStep.2)
        | none => (sysStep.1, sysStep.2)
      { state := r1.1, ctx := onlineStep.1, notifs := r1.2.1, history := r1.2.2
        updated := (onlineStep.2 || firstRun), error := none }

/-- One full `requestUpdate` run (lines 155 to 247).  The input is either
the received response payload or the error text of a failed transport
send (including the queue timeout).  A TypeError thrown inside the
success handler also lands in the catch block, whose online heuristic
then runs on the error text. -/
def requestUpdate (cfg : Config) (firstRun : Bool) (s : DeviceState)
    (ctx : AccessoryCtx) (result : Except String PollResponse) : PollOutcome :=
  match result with
  | Except.error e =>
    let fr := handlePollFailure firstRun ctx e
    { state := s, ctx := fr.1, notifs := [], history := [], updated := fr.2
      error := some e }
  | Except.ok resp =>
    let r := pollSuccessHandler cfg firstRun s ctx resp
    match r.error with
    | some e =>
      let fr := handlePollFailure firstRun r.ctx e
      { r with ctx := fr.1, updated := fr.2, error := some e }
    | none => r

/-- An MQTT push message body (`params`): the optional payload carries the
same `togglex` or `toggle` shape as a poll digest. -/
structure PushParams where
  payload : Option DigestShape := none
deriving DecidableEq, Repr

/-- `receiveUpdate(params)` (lines 249 to 266): forward the payload
fragment straight to `applyUpdate`; `this.isToggleX` is never assigned on
this path. -/
def receiveUpdate (cfg : Config) (s : DeviceState) (params : PushParams) :
    DeviceState × List Notif × List ℤ :=
  match params.payload with
  | none => (s, [], [])
  | some pl =>
    match pl.togglex with
    | some (f :: _) =>
      let r := applyUpdate cfg s f
      (r.state, r.notifs, r.history)
    | _ =>
      match pl.toggle with
      | some f =>
        let r := applyUpdate cfg s f
        (r.state, r.notifs, r.history)
      | none => (s, [], [])

/-- jsRound agrees with the mathematical floor of the shifted argument. -/
theorem jsRound_eq_floor (q : ℚ) : jsRound q = ⌊q + 1 / 2⌋ :=
  (Rat.floor_def' _).trans Rat.floor_def.symm

theorem applyOnoff_cacheState (s : DeviceState) (o : Option ℤ) :
    (applyOnoff s o).1.cacheState =
      match o with | some v => (v == 1) | none => s.cacheState := by
  cases o with
  | none => rfl
  | some v =>
    by_cases h : s.cacheState = (v == 1)
    · simp [applyOnoff, h]
    · simp [applyOnoff, h]

theorem applyOnoff_cachePower (s : DeviceState) (o : Option ℤ) :
    (applyOnoff s o).1.cachePower = s.cachePower := by
  cases o with
  | none => rfl
  | some v =>
    by_cases h : s.cacheState = (v == 1)
    · simp [applyOnoff, h]
    · simp [applyOnoff, h]

theorem applyOnoff_cacheVoltage (s : DeviceState) (o : Option ℤ) :
    (applyOnoff s o).1.cacheVoltage = s.cacheVoltage := by
  cases o with
  | none => rfl
  | some v =>
    by_cases h : s.cacheState = (v == 1)
    · simp [applyOnoff, h]
    · simp [applyOnoff, h]

theorem applyOnoff_cacheInUse (s : DeviceState) (o : Option ℤ) :
    (applyOnoff s o).1.cacheInUse = s.cacheInUse := by
  cases o with
  | none => rfl
  | some v =>
    by_cases h : s.cacheState = (v == 1)
    · simp [applyOnoff, h]
    · simp [applyOnoff, h]

theorem applyOnoff_isToggleX (s : DeviceState) (o : Option ℤ) :
    (applyOnoff s o).1.isToggleX = s.isToggleX := by
  cases o with
  | none => rfl
  | some v =>
    by_cases h : s.cacheState = (v == 1)
    · simp [applyOnoff, h]
    · simp [applyOnoff, h]

theorem applyPower_none (cfg : Config) (s : DeviceState) :
    applyPower cfg s none = (s, []) := rfl

theorem applyPower_some_eq (cfg : Config) (s : DeviceState) (p : ℤ)
    (h : s.cachePower = some p) : applyPower cfg s (some p) = (s, []) := by
  simp [applyPower, h]

theorem applyPower_some_ne_same (cfg : Config) (s : DeviceState) (p : ℤ)
    (h : s.cachePower ≠ some p)
    (h2 : s.cacheInUse
        = (s.cacheState && decide (scaledPower p > cfg.inUsePowerThreshold))) :
    applyPower cfg s (some p)
      = ({ s with cachePower := some p }, [Notif.consumption (scaledPower p)]) := by
  simp [applyPower, h, h2]

theorem applyPower_some_ne_diff (cfg : Config) (s : DeviceState) (p : ℤ)
    (h : s.cachePower ≠ some p)
    (h2 : s.cacheInUse
        ≠ (s.cacheState && decide (scaledPower p > cfg.inUsePowerThreshold))) :
    applyPower cfg s (some p)
      = ({ s with cachePower := some p
                  cacheInUse :=
                    s.cacheState && decide (scaledPower p > cfg.inUsePowerThreshold) },
         [Notif.consumption (scaledPower p),
          Notif.outletInUse
            (s.cacheState && decide (scaledPower p > cfg.inUsePowerThreshold))]) := by
  simp [applyPower, h, h2]

theorem applyPower_cacheState (cfg : Config) (s : DeviceState) (p : Option ℤ) :
    (applyPower cfg s p).1.cacheState = s.cacheState := by
  cases p with
  | none => rfl
  | some q =>
    by_cases h : s.cachePower = some q
    · rw [applyPower_some_eq cfg s q h]
    · by_cases h2 : s.cacheInUse
          = (s.cacheState && decide (scaledPower q > cfg.inUsePowerThreshold))
      · rw [applyPower_some_ne_same cfg s q h h2]
      · rw [applyPower_some_ne_diff cfg s q h h2]

theorem applyPower_cacheVoltage (cfg : Config) (s : DeviceState) (p : Option ℤ) :
    (applyPower cfg s p).1.cacheVoltage = s.cacheVoltage := by
  cases p with
  | none => rfl
  | some q =>
    by_cases h : s.cachePower = some q
    · rw [applyPower_some_eq cfg s q h]
    · by_cases h2 : s.cacheInUse
          = (s.cacheState && decide (scaledPower q > cfg.inUsePowerThreshold))
      · rw [applyPower_some_ne_same cfg s q h h2]
      · rw [applyPower_some_ne_diff cfg s q h h2]

theorem applyPower_isToggleX (cfg : Config) (s : DeviceState) (p : Option ℤ) :
    (applyPower cfg s p).1.isToggleX = s.isToggleX := by
  cases p with
  | none => rfl
  | some q =>
    by_cases h : s.cachePower = some q
    · rw [applyPower_some_eq cfg s q h]
    · by_cases h2 : s.cacheInUse
          = (s.cacheState && decide (scaledPower q > cfg.inUsePowerThreshold))
      · rw [applyPower_some_ne_same cfg s q h h2]
      · rw [applyPower_some_ne_diff cfg s q h h2]

theorem applyPower_cachePower (cfg : Config) (s : DeviceState) (p : Option ℤ) :
    (applyPower cfg s p).1.cachePower =
      match p with | some q => some q | none => s.cachePower := by
  cases p with
  | none => rfl
  | some q =>
    by_cases h : s.cachePower = some q
    · rw [applyPower_some_eq cfg s q h]
      exact h
    · by_cases h2 : s.cacheInUse
          = (s.cacheState && decide (scaledPower q > cfg.inUsePowerThreshold))
      · rw [applyPower_some_ne_same cfg s q h h2]
      · rw [applyPower_some_ne_diff cfg s q h h2]

theorem applyPower_cacheInUse (cfg : Config) (s : DeviceState) (p : Option ℤ) :
    (applyPower cfg s p).1.cacheInUse =
      match p with
      | some q =>
        if s.cachePower = some q then s.cacheInUse
        else s.cacheState && decide (scaledPower q > cfg.inUsePowerThreshold)
      | none => s.cacheInUse := by
  cases p with
  | none => rfl
  | some q =>
    by_cases h : s.cachePower = some q
    · rw [applyPower_some_eq cfg s q h]
      simp [h]
    · by_cases h2 : s.cacheInUse
          = (s.cacheState && decide (scaledPower q > cfg.inUsePowerThreshold))
      · rw [applyPower_some_ne_same cfg s q h h2]
        simp [h, h2]
      · rw [applyPower_some_ne_diff cfg s q h h2]
        simp [h]

theorem applyVoltage_none (s : DeviceState) : applyVoltage s none = (s, []) := rfl

theorem applyVoltage_some_eq (s : DeviceState) (v : ℤ) (h : s.cacheVoltage = some v) :
    applyVoltage s (some v) = (s, []) := by
  simp [applyVoltage, h]

theorem applyVoltage_some_ne (s : DeviceState) (v : ℤ) (h : s.cacheVoltage ≠ some v) :
    applyVoltage s (some v)
      = ({ s with cacheVoltage := some v }, [Notif.voltage (scaledVoltage v)]) := by
  simp [applyVoltage, h]

theorem applyVoltage_cacheState (s : DeviceState) (v : Option ℤ) :
    (applyVoltage s v).1.cacheState = s.cacheState := by
  cases v with
  | none => rfl
  | some w =>
    by_cases h : s.cacheVoltage = some w
    · rw [applyVoltage_some_eq s w h]
    · rw [applyVoltage_some_ne s w h]

theorem applyVoltage_cachePower (s : DeviceState) (v : Option ℤ) :
    (applyVoltage s v).1.cachePower = s.cachePower := by
  cases v with
  | none => rfl
  | some w =>
    by_cases h : s.cacheVoltage = some w
    · rw [applyVoltage_some_eq s w h]
    · rw [applyVoltage_some_ne s w h]

theorem applyVoltage_cacheInUse (s : DeviceState) (v : Option ℤ) :
    (applyVoltage s v).1.cacheInUse = s.cacheInUse := by
  cases v with
  | none => rfl
  | some w =>
    by_cases h : s.cacheVoltage = some w
    · rw [applyVoltage_some_eq s w h]
    · rw [applyVoltage_some_ne s w h]

theorem applyVoltage_isToggleX (s : DeviceState) (v : Option ℤ) :
    (applyVoltage s v).1.isToggleX = s.isToggleX := by
  cases v with
  | none => rfl
  | some w =>
    by_cases h : s.cacheVoltage = some w
    · rw [applyVoltage_some_eq s w h]
    · rw [applyVoltage_some_ne s w h]

theorem applyVoltage_cacheVoltage (s : DeviceState) (v : Option ℤ) :
    (applyVoltage s v).1.cacheVoltage =
      match v with | some w => some w | none => s.cacheVoltage := by
  cases v with
  | none => rfl
  | some w =>
    by_cases h : s.cacheVoltage = some w
    · rw [applyVoltage_some_eq s w h]
      exact h
    · rw [applyVoltage_some_ne s w h]

theorem countKind_append (a b : List Notif) (k : NotifKind) :
    countKind (a ++ b) k = countKind a k + countKind b k := by
  simp [countKind, List.filter_append]

theorem countKind_applyOnoff_on (s : DeviceState) (o : Option ℤ) :
    countKind (applyOnoff s o).2.1 NotifKind.on
      = if onoffDiffers s.cacheState o then 1 else 0 := by
  cases o with
  | none => rfl
  | some v =>
    by_cases h : s.cacheState = (v == 1)
    · simp [applyOnoff, countKind, onoffDiffers, h]
    · simp [applyOnoff, countKind, onoffDiffers, Notif.kind, h]

theorem countKind_applyOnoff_ne (s : DeviceState) (o : Option ℤ) (k : NotifKind)
    (hk : k ≠ NotifKind.on) : countKind (applyOnoff s o).2.1 k = 0 := by
  cases o with
  | none => rfl
  | some v =>
    by_cases h : s.cacheState = (v == 1)
    · simp [applyOnoff, countKind, h]
    · simp [applyOnoff, countKind, Notif.kind, h, Ne.symm hk]

theorem countKind_applyPower_consumption (cfg : Config) (s : DeviceState) (p : Option ℤ) :
    countKind (applyPower cfg s p).2 NotifKind.consumption
      = if optDiffers s.cachePower p then 1 else 0 := by
  cases p with
  | none => rfl
  | some q =>
    by_cases h : s.cachePower = some q
    · rw [applyPower_some_eq cfg s q h]
      simp [countKind, optDiffers, h]
    · by_cases h2 : s.cacheInUse
          = (s.cacheState && decide (scaledPower q > cfg.inUsePowerThreshold))
      · rw [applyPower_some_ne_same cfg s q h h2]
        simp [countKind, optDiffers, Notif.kind, h]
      · rw [applyPower_some_ne_diff cfg s q h h2]
        simp [countKind, optDiffers, Notif.kind, h]

theorem countKind_applyPower_outletInUse (cfg : Config) (s : DeviceState) (p : Option ℤ) :
    countKind (applyPower cfg s p).2 NotifKind.outletInUse
      = if (applyPower cfg s p).1.cacheInUse != s.cacheInUse then 1 else 0 := by
  cases p with
  | none => simp [applyPower_none, countKind]
  | some q =>
    by_cases h : s.cachePower = some q
    · rw [applyPower_some_eq cfg s q h]
      simp [countKind]
    · by_cases h2 : s.cacheInUse
          = (s.cacheState && decide (scaledPower q > cfg.inUsePowerThreshold))
      · rw [applyPower_some_ne_same cfg s q h h2]
        simp [countKind, Notif.kind, ← h2]
      · rw [applyPower_some_ne_diff cfg s q h h2]
        simp [countKind, Notif.kind, Ne.symm h2]

theorem countKind_applyPower_on (cfg : Config) (s : DeviceState) (p : Option ℤ) :
    countKind (applyPower cfg s p).2 NotifKind.on = 0 := by
  cases p with
  | none => rfl
  | some q =>
    by_cases h : s.cachePower = some q
    · rw [applyPower_some_eq cfg s q h]
      simp [countKind]
    · by_cases h2 : s.cacheInUse
          = (s.cacheState && decide (scaledPower q > cfg.inUsePowerThreshold))
      · rw [applyPower_some_ne_same cfg s q h h2]
        simp [countKind, Notif.kind]
      · rw [applyPower_some_ne_diff cfg s q h h2]
        simp [countKind, Notif.kind]

theorem countKind_applyPower_voltage (cfg : Config) (s : DeviceState) (p : Option ℤ) :
    countKind (applyPower cfg s p).2 NotifKind.voltage = 0 := by
  cases p with
  | none => rfl
  | some q =>
    by_cases h : s.cachePower = some q
    · rw [applyPower_some_eq cfg s q h]
      simp [countKind]
    · by_cases h2 : s.cacheInUse
          = (s.cacheState && decide (scaledPower q > cfg.inUsePowerThreshold))
      · rw [applyPower_some_ne_same cfg s q h h2]
        simp [countKind, Notif.kind]
      · rw [applyPower_some_ne_diff cfg s q h h2]
        simp [countKind, Notif.kind]

theorem countKind_applyVoltage_voltage (s : DeviceState) (v : Option ℤ) :
    countKind (applyVoltage s v).2 NotifKind.voltage
      = if optDiffers s.cacheVoltage v then 1 else 0 := by
  cases v with
  | none => rfl
  | some w =>
    by_cases h : s.cacheVoltage = some w
    · rw [applyVoltage_some_eq s w h]
      simp [countKind, optDiffers, h]
    · rw [applyVoltage_some_ne s w h]
      simp [countKind, optDiffers, Notif.kind, h]

theorem countKind_applyVoltage_ne (s : DeviceState) (v : Option ℤ) (k : NotifKind)
    (hk : k ≠ NotifKind.voltage) : countKind (applyVoltage s v).2 k = 0 := by
  cases v with
  | none => rfl
  | some w =>
    by_cases h : s.cacheVoltage = some w
    · rw [applyVoltage_some_eq s w h]
      simp [countKind]
    · rw [applyVoltage_some_ne s w h]
      simp [countKind, Notif.kind, Ne.symm hk]

theorem applyUpdate_cacheState (cfg : Config) (s : DeviceState) (d : Fragment) :
    (applyUpdate cfg s d).state.cacheState =
      match d.onoff with | some v => (v == 1) | none => s.cacheState := by
  simp only [applyUpdate]
  rw [applyVoltage_cacheState, applyPower_cacheState, applyOnoff_cacheState]

theorem applyUpdate_cachePower (cfg : Config) (s : DeviceState) (d : Fragment) :
    (applyUpdate cfg s d).state.cachePower =
      match d.power with | some x => some x | none => s.cachePower := by
  simp only [applyUpdate]
  rw [applyVoltage_cachePower, applyPower_cachePower, applyOnoff_cachePower]

theorem applyUpdate_cacheVoltage (cfg : Config) (s : DeviceState) (d : Fragment) :
    (applyUpdate cfg s d).state.cacheVoltage =
      match d.voltage with | some x => some x | none => s.cacheVoltage := by
  simp only [applyUpdate]
  rw [applyVoltage_cacheVoltage, applyPower_cacheVoltage, applyOnoff_cacheVoltage]

theorem applyUpdate_isToggleX (cfg : Config) (s : DeviceState) (d : Fragment) :
    (applyUpdate cfg s d).state.isToggleX = s.isToggleX := by
  simp only [applyUpdate]
  rw [applyVoltage_isToggleX, applyPower_isToggleX, applyOnoff_isToggleX]

theorem applyUpdate_cacheInUse (cfg : Config) (s : DeviceState) (d : Fragment) :
    (applyUpdate cfg s d).state.cacheInUse =
      (applyPower cfg (applyOnoff s d.onoff).1 d.power).1.cacheInUse := by
  simp only [applyUpdate]
  rw [applyVoltage_cacheInUse]

theorem applyUpdate_count_on (cfg : Config) (s : DeviceState) (d : Fragment) :
    countKind (applyUpdate cfg s d).notifs NotifKind.on
      = if onoffDiffers s.cacheState d.onoff then 1 else 0 := by
  simp only [applyUpdate]
  rw [countKind_append, countKind_append, countKind_applyOnoff_on,
    countKind_applyPower_on, countKind_applyVoltage_ne _ _ _ (by decide)]
  omega

theorem applyUpdate_count_consumption (cfg : Config) (s : DeviceState) (d : Fragment) :
    countKind (applyUpdate cfg s d).notifs NotifKind.consumption
      = if optDiffers s.cachePower d.power then 1 else 0 := by
  simp only [applyUpdate]
  rw [countKind_append, countKind_append, countKind_applyOnoff_ne _ _ _ (by decide),
    countKind_applyPower_consumption, countKind_applyVoltage_ne _ _ _ (by decide),
    applyOnoff_cachePower]
  omega

theorem applyUpdate_count_voltage (cfg : Config) (s : DeviceState) (d : Fragment) :
    countKind (applyUpdate cfg s d).notifs NotifKind.voltage
      = if optDiffers s.cacheVoltage d.voltage then 1 else 0 := by
  simp only [applyUpdate]
  rw [countKind_append, countKind_append, countKind_applyOnoff_ne _ _ _ (by decide),
    countKind_applyPower_voltage, countKind_applyVoltage_voltage,
    applyPower_cacheVoltage, applyOnoff_cacheVoltage]
  omega

theorem applyUpdate_count_outletInUse (cfg : Config) (s : DeviceState) (d : Fragment) :
    countKind (applyUpdate cfg s d).notifs NotifKind.outletInUse
      = if (applyUpdate cfg s d).state.cacheInUse != s.cacheInUse then 1 else 0 := by
  simp only [applyUpdate]
  rw [countKind_append, countKind_append, countKind_applyOnoff_ne _ _ _ (by decide),
    countKind_applyPower_outletInUse, countKind_applyVoltage_ne _ _ _ (by decide)]
  simp only [applyVoltage_cacheInUse, applyOnoff_cacheInUse]
  omega

theorem applySeq_cacheState (cfg : Config) (s : DeviceState) (ds : List Fragment) :
    (applySeq cfg s ds).cacheState = lastCommanded s.cacheState ds := by
  induction ds generalizing s with
  | nil => rfl
  | cons d ds ih =>
    simp only [applySeq, lastCommanded, List.foldl_cons]
    rw [ih, applyUpdate_cacheState]
    rfl

theorem applySeq_cachePower (cfg : Config) (s : DeviceState) (ds : List Fragment) :
    (applySeq cfg s ds).cachePower
      = lastReading s.cachePower (fun d => d.power) ds := by
  induction ds generalizing s with
  | nil => rfl
  | cons d ds ih =>
    simp only [applySeq, lastReading, List.foldl_cons]
    rw [ih, applyUpdate_cachePower]
    rfl

theorem applySeq_cacheVoltage (cfg : Config) (s : DeviceState) (ds : List Fragment) :
    (applySeq cfg s ds).cacheVoltage
      = lastReading s.cacheVoltage (fun d => d.voltage) ds := by
  induction ds generalizing s with
  | nil => rfl
  | cons d ds ih =>
    simp only [applySeq, lastReading, List.foldl_cons]
    rw [ih, applyUpdate_cacheVoltage]
    rfl

/-- C8: for every call of internalStateUpdate with a value equal to the
cached commanded state, zero outbound transport calls are issued, the
cache is unchanged, and no history entry, revert or error is produced. -/
theorem c8_short_circuit_no_io (s : DeviceState) (value : Bool) (outcome : SendOutcome)
    (h : value = s.cacheState) :
    internalStateUpdate s value outcome
      = { state := s, sent := [], history := [], revert := none, hapError := none } := by
  simp [internalStateUpdate, h]

/-- C8 witness: a concrete no-op call. -/
theorem c8_short_circuit_no_io_witness :
    (true = ({ cacheState := true, cachePower := none, cacheVoltage := none,
               cacheInUse := false, isToggleX := none } : DeviceState).cacheState)
    ∧ internalStateUpdate
        { cacheState := true, cachePower := none, cacheVoltage := none,
          cacheInUse := false, isToggleX := none } true SendOutcome.ok
      = { state := { cacheState := true, cachePower := none, cacheVoltage := none,
                     cacheInUse := false, isToggleX := none },
          sent := [], history := [], revert := none, hapError := none } :=
  ⟨rfl, c8_short_circuit_no_io _ _ _ rfl⟩

/-- C7: when the queued command task fails (transport error or timeout),
the cache is unchanged, exactly one command was sent with no retry, a
revert of the On characteristic to the pre-command cached value is
scheduled after the fixed 2000 ms grace delay, and the single HAP error
-70402 is surfaced. -/
theorem c7_failure_revert_and_error (s : DeviceState) (value : Bool)
    (outcome : SendOutcome) (hv : value ≠ s.cacheState) (ho : outcome ≠ SendOutcome.ok) :
    internalStateUpdate s value outcome
      = { state := s, sent := [buildCommand s.isToggleX value], history := []
          revert := some (2000, s.cacheState), hapError := some (-70402) } := by
  cases outcome with
  | ok => exact absurd rfl ho
  | err m => simp [internalStateUpdate, hv]
  | timeout => simp [internalStateUpdate, hv]

/-- C7 witness: a concrete timed-out command. -/
theorem c7_failure_revert_and_error_witness :
    (true ≠ ({ cacheState := false, cachePower := none, cacheVoltage := none,
               cacheInUse := false, isToggleX := none } : DeviceState).cacheState)
    ∧ (SendOutcome.timeout ≠ SendOutcome.ok)
    ∧ internalStateUpdate
        { cacheState := false, cachePower := none, cacheVoltage := none,
          cacheInUse := false, isToggleX := none } true SendOutcome.timeout
      = { state := { cacheState := false, cachePower := none, cacheVoltage := none,
                     cacheInUse := false, isToggleX := none },
          sent := [buildCommand none true], history := []
          revert := some (2000, false), hapError := some (-70402) } :=
  ⟨by decide, by decide, c7_failure_revert_and_error _ _ _ (by decide) (by decide)⟩

/-- C3 counterexample: with the protocol variant still unresolved
(isToggleX undefined), the command built and sent is the legacy Toggle
one, not the ToggleX one the claim states. -/
theorem c3_counterexample :
    buildCommand none true
      = { nspace := "Appliance.Control.Toggle", payload := CmdPayload.toggle 1 }
    ∧ (buildCommand none true).nspace ≠ "Appliance.Control.ToggleX"
    ∧ (internalStateUpdate
        { cacheState := false, cachePower := none, cacheVoltage := none,
          cacheInUse := false, isToggleX := none } true SendOutcome.ok).sent
      = [{ nspace := "Appliance.Control.Toggle", payload := CmdPayload.toggle 1 }] := by
  refine ⟨rfl, ?_, ?_⟩ <;> decide

/-- C3 (amended): when no poll has resolved the protocol variant yet
(isToggleX undefined), internalStateUpdate sends the Legacy command:
namespace Appliance.Control.Toggle with a toggle payload carrying no
channel and onoff in zero or one. -/
theorem c3_unknown_variant_sends_legacy (s : DeviceState) (value : Bool)
    (outcome : SendOutcome) (hX : s.isToggleX = none) (hv : value ≠ s.cacheState) :
    (internalStateUpdate s value outcome).sent
      = [{ nspace := "Appliance.Control.Toggle"
           payload := CmdPayload.toggle (if value then 1 else 0) }]
    ∧ ((if value then (1 : ℤ) else 0) = 0 ∨ (if value then (1 : ℤ) else 0) = 1) := by
  constructor
  · cases outcome <;> simp [internalStateUpdate, hv, buildCommand, hX]
  · cases value <;> simp

/-- C3 witness: a concrete call with the variant unresolved. -/
theorem c3_unknown_variant_sends_legacy_witness :
    (({ cacheState := false, cachePower := none, cacheVoltage := none,
        cacheInUse := false, isToggleX := none } : DeviceState).isToggleX = none)
    ∧ (true ≠ ({ cacheState := false, cachePower := none, cacheVoltage := none,
                 cacheInUse := false, isToggleX := none } : DeviceState).cacheState)
    ∧ ((internalStateUpdate
          { cacheState := false, cachePower := none, cacheVoltage := none,
            cacheInUse := false, isToggleX := none } true SendOutcome.ok).sent
        = [{ nspace := "Appliance.Control.Toggle"
             payload := CmdPayload.toggle (if true then 1 else 0) }]
      ∧ ((if true then (1 : ℤ) else 0) = 0 ∨ (if true then (1 : ℤ) else 0) = 1)) :=
  ⟨rfl, by decide, c3_unknown_variant_sends_legacy _ _ _ rfl (by decide)⟩

/-- C6: a full-state poll failure marks the device offline with one
accessory-update notification exactly when the error text contains one of
the connectivity signatures (EHOSTUNREACH or timed out) and the device
was previously online (truthy flag) or it is the first run; a second
identical timed-out failure after the flag is already false produces no
further notification. -/
theorem c6_offline_heuristic :
    (∀ (cfg : Config) (firstRun : Bool) (s : DeviceState) (ctx : AccessoryCtx)
        (eText : String),
      ((requestUpdate cfg firstRun s ctx (Except.error eText)).updated = true
        ∧ (requestUpdate cfg firstRun s ctx (Except.error eText)).ctx.isOnline
            = some false)
      ↔ ((includesStr eText "EHOSTUNREACH" = true ∨ includesStr eText "timed out" = true)
          ∧ (ctx.isOnline = some true ∨ firstRun = true)))
    ∧ ((requestUpdate { inUsePowerThreshold := 0 } false
          { cacheState := false, cachePower := none, cacheVoltage := none,
            cacheInUse := false, isToggleX := none }
          { macAddress := none, hardware := none, ipAddress := none,
            firmware := none, isOnline := some true }
          (Except.error "meross connection timed out")).updated = true
      ∧ (requestUpdate { inUsePowerThreshold := 0 } false
          { cacheState := false, cachePower := none, cacheVoltage := none,
            cacheInUse := false, isToggleX := none }
          { macAddress := none, hardware := none, ipAddress := none,
            firmware := none, isOnline := some true }
          (Except.error "meross connection timed out")).ctx.isOnline = some false
      ∧ (requestUpdate { inUsePowerThreshold := 0 } false
          { cacheState := false, cachePower := none, cacheVoltage := none,
            cacheInUse := false, isToggleX := none }
          { macAddress := none, hardware := none, ipAddress := none,
            firmware := none, isOnline := some false }
          (Except.error "meross connection timed out")).updated = false) := by
  constructor
  · intro cfg firstRun s ctx eText
    simp only [requestUpdate, handlePollFailure, matchesConnectFailure, optTruthy,
      List.any_cons, List.any_nil, Bool.or_false]
    by_cases hc : ((ctx.isOnline == some true || firstRun)
        && (includesStr eText "EHOSTUNREACH" || includesStr eText "timed out")) = true
    · rw [if_pos hc]
      simp only [Bool.and_eq_true, Bool.or_eq_true, beq_iff_eq] at hc
      simp [hc.1, hc.2]
    · rw [if_neg hc]
      simp only [Bool.and_eq_true, Bool.or_eq_true, beq_iff_eq] at hc
      push_neg at hc
      constructor
      · rintro ⟨h1, h2⟩
        exact absurd h1 (by simp)
      · rintro ⟨h1, h2⟩
        exact absurd (hc (by tauto)) (by tauto)
  · refine ⟨?_, ?_, ?_⟩ <;> decide

/-- C4 counterexample: a first successful poll with a togglex digest
resolves the variant to Extended (isToggleX true), and a later successful
poll with a toggle digest changes it to Legacy (isToggleX false) — the
resolved value is not sticky. -/
theorem c4_counterexample :
    (pollSuccessHandler { inUsePowerThreshold := 0 } true
        { cacheState := false, cachePower := none, cacheVoltage := none,
          cacheInUse := false, isToggleX := none }
        { macAddress := none, hardware := none, ipAddress := none,
          firmware := none, isOnline := none }
        { all := some {
            digest := some { togglex := some [{ onoff := some 1 }], toggle := none }
            system := some { hardware := none, firmware := none, online := some 1 } } }
      ).state.isToggleX = some true
    ∧ (pollSuccessHandler { inUsePowerThreshold := 0 } false
        (pollSuccessHandler { inUsePowerThreshold := 0 } true
          { cacheState := false, cachePower := none, cacheVoltage := none,
            cacheInUse := false, isToggleX := none }
          { macAddress := none, hardware := none, ipAddress := none,
            firmware := none, isOnline := none }
          { all := some {
              digest := some { togglex := some [{ onoff := some 1 }], toggle := none }
              system := some { hardware := none, firmware := none, online := some 1 } } }
        ).state
        { macAddress := none, hardware := none, ipAddress := none,
          firmware := none, isOnline := some true }
        { all := some {
            digest := some { togglex := none, toggle := some { onoff := some 1 } }
            system := some { hardware := none, firmware := none, online := some 1 } } }
      ).state.isToggleX = some false := by
  constructor
  · simp [pollSuccessHandler, applyUpdate_isToggleX]
  · simp [pollSuccessHandler, applyUpdate_isToggleX]

/-- C4 (amended): the protocol variant is written only by successful
full-state polls (push updates never change it), but it is re-resolved by
every successful poll whose digest carries a discriminant, not just the
first: a togglex digest sets Extended, a toggle digest sets Legacy, and a
response without a discriminant leaves it unchanged. -/
theorem c4_variant_resolution :
    (∀ (cfg : Config) (firstRun : Bool) (s : DeviceState) (ctx : AccessoryCtx)
        (resp : PollResponse),
      (pollSuccessHandler cfg firstRun s ctx resp).state.isToggleX =
        match resp.all with
        | some allData =>
          match allData.digest with
          | some dg =>
            match dg.togglex with
            | some (_ :: _) => some true
            | _ =>
              match dg.toggle with
              | some _ => some false
              | none => s.isToggleX
          | none => s.isToggleX
        | none => s.isToggleX)
    ∧ (∀ (cfg : Config) (s : DeviceState) (params : PushParams),
        (receiveUpdate cfg s params).1.isToggleX = s.isToggleX) := by
  constructor
  · intro cfg firstRun s ctx resp
    rcases resp with ⟨allOpt⟩
    cases allOpt with
    | none => rfl
    | some allData =>
      rcases allData with ⟨dgOpt, sysOpt⟩
      cases dgOpt with
      | none =>
        cases sysOpt <;> simp [pollSuccessHandler]
      | some dg =>
        rcases dg with ⟨txOpt, tgOpt⟩
        cases txOpt with
        | none =>
          cases tgOpt <;> cases sysOpt <;>
            simp [pollSuccessHandler, applyUpdate_isToggleX]
        | some txList =>
          cases txList with
          | nil =>
            cases tgOpt <;> cases sysOpt <;>
              simp [pollSuccessHandler, applyUpdate_isToggleX]
          | cons f fs =>
            cases sysOpt <;> simp [pollSuccessHandler, applyUpdate_isToggleX]
  · intro cfg s params
    rcases params with ⟨plOpt⟩
    cases plOpt with
    | none => rfl
    | some pl =>
      rcases pl with ⟨txOpt, tgOpt⟩
      cases txOpt with
      | none => cases tgOpt <;> simp [receiveUpdate, applyUpdate_isToggleX]
      | some txList =>
        cases txList with
        | nil => cases tgOpt <;> simp [receiveUpdate, applyUpdate_isToggleX]
        | cons f fs => simp [receiveUpdate, applyUpdate_isToggleX]

theorem matchesConnectFailure_undefinedOnlineMsg :
    matchesConnectFailure undefinedOnlineMsg = false := by decide

/-- C9 counterexample: a response with all present, a togglex digest, and
system absent still mutates the on and off cache and resolves the
protocol variant before the unguarded online dereference throws — the
claim that both stay unchanged is false (the online flag does stay
unchanged). -/
theorem c9_counterexample :
    ((requestUpdate { inUsePowerThreshold := 0 } false
        { cacheState := false, cachePower := none, cacheVoltage := none,
          cacheInUse := false, isToggleX := none }
        { macAddress := none, hardware := none, ipAddress := none,
          firmware := none, isOnline := some true }
        (Except.ok { all := some {
            digest := some { togglex := some [{ onoff := some 1 }], toggle := none }
            system := none } })).error).isSome = true
    ∧ (requestUpdate { inUsePowerThreshold := 0 } false
        { cacheState := false, cachePower := none, cacheVoltage := none,
          cacheInUse := false, isToggleX := none }
        { macAddress := none, hardware := none, ipAddress := none,
          firmware := none, isOnline := some true }
        (Except.ok { all := some {
            digest := some { togglex := some [{ onoff := some 1 }], toggle := none }
            system := none } })).state.cacheState = true
    ∧ (requestUpdate { inUsePowerThreshold := 0 } false
        { cacheState := false, cachePower := none, cacheVoltage := none,
          cacheInUse := false, isToggleX := none }
        { macAddress := none, hardware := none, ipAddress := none,
          firmware := none, isOnline := some true }
        (Except.ok { all := some {
            digest := some { togglex := some [{ onoff := some 1 }], toggle := none }
            system := none } })).state.isToggleX = some true
    ∧ (requestUpdate { inUsePowerThreshold := 0 } false
        { cacheState := false, cachePower := none, cacheVoltage := none,
          cacheInUse := false, isToggleX := none }
        { macAddress := none, hardware := none, ipAddress := none,
          firmware := none, isOnline := some true }
        (Except.ok { all := some {
            digest := some { togglex := some [{ onoff := some 1 }], toggle := none }
            system := none } })).ctx.isOnline = some true := by
  refine ⟨?_, ?_, ?_, ?_⟩ <;>
    simp [requestUpdate, pollSuccessHandler, handlePollFailure,
      matchesConnectFailure_undefinedOnlineMsg, applyUpdate_cacheState,
      applyUpdate_isToggleX]

/-- C9 (amended): for any response whose payload has all present but
all.system absent, the handler raises the TypeError at the unguarded
online read, the poll ends in the error branch with no accessory update,
the accessory context including the online flag is unchanged (the error
text carries no connectivity signature), and the on and off cache and
protocol variant are unchanged exactly when the response carries no
digest — a digest in the same response is applied before the throw. -/
theorem c9_missing_system_partial (cfg : Config) (firstRun : Bool) (s : DeviceState)
    (ctx : AccessoryCtx) (allData : AllShape) (hsys : allData.system = none) :
    (requestUpdate cfg firstRun s ctx (Except.ok { all := some allData })).error
        = some undefinedOnlineMsg
    ∧ (requestUpdate cfg firstRun s ctx (Except.ok { all := some allData })).ctx = ctx
    ∧ (requestUpdate cfg firstRun s ctx (Except.ok { all := some allData })).updated
        = false
    ∧ matchesConnectFailure undefinedOnlineMsg = false
    ∧ (allData.digest = none →
        (requestUpdate cfg firstRun s ctx (Except.ok { all := some allData })).state = s)
    ∧ (∀ dg f fs, allData.digest = some dg → dg.togglex = some (f :: fs) →
        (requestUpdate cfg firstRun s ctx (Except.ok { all := some allData })).state
          = (applyUpdate cfg { s with isToggleX := some true } f).state) := by
  rcases allData with ⟨dgOpt, sysOpt⟩
  simp only at hsys
  subst hsys
  refine ⟨?_, ?_, ?_, matchesConnectFailure_undefinedOnlineMsg, ?_, ?_⟩
  · simp [requestUpdate, pollSuccessHandler, handlePollFailure,
      matchesConnectFailure_undefinedOnlineMsg]
  · simp [requestUpdate, pollSuccessHandler, handlePollFailure,
      matchesConnectFailure_undefinedOnlineMsg]
  · simp [requestUpdate, pollSuccessHandler, handlePollFailure,
      matchesConnectFailure_undefinedOnlineMsg]
  · intro hdg
    simp only at hdg
    subst hdg
    simp [requestUpdate, pollSuccessHandler, handlePollFailure,
      matchesConnectFailure_undefinedOnlineMsg]
  · intro dg f fs hdg htx
    simp only at hdg
    subst hdg
    simp [requestUpdate, pollSuccessHandler, handlePollFailure,
      matchesConnectFailure_undefinedOnlineMsg, htx]

/-- C9 witness: a concrete digest-free response with system absent. -/
theorem c9_missing_system_partial_witness :
    (({ digest := none, system := none } : AllShape).system = none)
    ∧ ((requestUpdate { inUsePowerThreshold := 0 } false
          { cacheState := false, cachePower := none, cacheVoltage := none,
            cacheInUse := false, isToggleX := none }
          { macAddress := none, hardware := none, ipAddress := none,
            firmware := none, isOnline := some true }
          (Except.ok { all := some { digest := none, system := none } })).error
        = some undefinedOnlineMsg
      ∧ (requestUpdate { inUsePowerThreshold := 0 } false
          { cacheState := false, cachePower := none, cacheVoltage := none,
            cacheInUse := false, isToggleX := none }
          { macAddress := none, hardware := none, ipAddress := none,
            firmware := none, isOnline := some true }
          (Except.ok { all := some { digest := none, system := none } })).ctx
        = { macAddress := none, hardware := none, ipAddress := none,
            firmware := none, isOnline := some true }
      ∧ (requestUpdate { inUsePowerThreshold := 0 } false
          { cacheState := false, cachePower := none, cacheVoltage := none,
            cacheInUse := false, isToggleX := none }
          { macAddress := none, hardware := none, ipAddress := none,
            firmware := none, isOnline := some true }
          (Except.ok { all := some { digest := none, system := none } })).updated
        = false
      ∧ matchesConnectFailure undefinedOnlineMsg = false
      ∧ (({ digest := none, system := none } : AllShape).digest = none →
          (requestUpdate { inUsePowerThreshold := 0 } false
            { cacheState := false, cachePower := none, cacheVoltage := none,
              cacheInUse := false, isToggleX := none }
            { macAddress := none, hardware := none, ipAddress := none,
              firmware := none, isOnline := some true }
            (Except.ok { all := some { digest := none, system := none } })).state
          = { cacheState := false, cachePower := none, cacheVoltage := none,
              cacheInUse := false, isToggleX := none })
      ∧ (∀ dg f fs,
          ({ digest := none, system := none } : AllShape).digest = some dg →
          dg.togglex = some (f :: fs) →
          (requestUpdate { inUsePowerThreshold := 0 } false
            { cacheState := false, cachePower := none, cacheVoltage := none,
              cacheInUse := false, isToggleX := none }
            { macAddress := none, hardware := none, ipAddress := none,
              firmware := none, isOnline := some true }
            (Except.ok { all := some { digest := none, system := none } })).state
          = (applyUpdate { inUsePowerThreshold := 0 }
              { cacheState := false, cachePower := none, cacheVoltage := none,
                cacheInUse := false, isToggleX := some true } f).state)) :=
  ⟨rfl, c9_missing_system_partial _ _ _ _ _ rfl⟩

/-- C5: each applyUpdate call emits exactly one notification per present
field whose (converted) incoming value differs from the cached value and
none for a no-op field, the derived outlet-in-use characteristic is
notified exactly when its cached value changes, and over any sequence of
calls each cache field ends at the last value carried for it. -/
theorem c5_reconciler_delta_notifications :
    (∀ (cfg : Config) (s : DeviceState) (d : Fragment),
        countKind (applyUpdate cfg s d).notifs NotifKind.on
          = (if onoffDiffers s.cacheState d.onoff then 1 else 0)
      ∧ countKind (applyUpdate cfg s d).notifs NotifKind.consumption
          = (if optDiffers s.cachePower d.power then 1 else 0)
      ∧ countKind (applyUpdate cfg s d).notifs NotifKind.voltage
          = (if optDiffers s.cacheVoltage d.voltage then 1 else 0)
      ∧ countKind (applyUpdate cfg s d).notifs NotifKind.outletInUse
          = (if (applyUpdate cfg s d).state.cacheInUse != s.cacheInUse then 1 else 0))
    ∧ (∀ (cfg : Config) (s : DeviceState) (ds : List Fragment),
        (applySeq cfg s ds).cacheState = lastCommanded s.cacheState ds
      ∧ (applySeq cfg s ds).cachePower = lastReading s.cachePower (fun d => d.power) ds
      ∧ (applySeq cfg s ds).cacheVoltage
          = lastReading s.cacheVoltage (fun d => d.voltage) ds) :=
  ⟨fun cfg s d =>
    ⟨applyUpdate_count_on cfg s d, applyUpdate_count_consumption cfg s d,
     applyUpdate_count_voltage cfg s d, applyUpdate_count_outletInUse cfg s d⟩,
   fun cfg s ds =>
    ⟨applySeq_cacheState cfg s ds, applySeq_cachePower cfg s ds,
     applySeq_cacheVoltage cfg s ds⟩⟩

theorem applyUpdate_inUse_power_none (cfg : Config) (s : DeviceState) (d : Fragment)
    (hd : d.power = none) :
    (applyUpdate cfg s d).state.cacheInUse = s.cacheInUse := by
  rw [applyUpdate_cacheInUse, hd, applyPower_none, applyOnoff_cacheInUse]

theorem applyUpdate_inUse_power_stale (cfg : Config) (s : DeviceState) (d : Fragment)
    (p : ℤ) (hd : d.power = some p) (hp : s.cachePower = some p) :
    (applyUpdate cfg s d).state.cacheInUse = s.cacheInUse := by
  rw [applyUpdate_cacheInUse, hd, applyPower_cacheInUse]
  simp [applyOnoff_cachePower, hp, applyOnoff_cacheInUse]

/-- C10: applyUpdate changes the cached in-use flag or notifies the
outlet-in-use characteristic only when the fragment carries a power
reading that differs from the cached raw power; a fragment without a
power field — in particular one that only changes the on and off state —
always leaves the in-use flag and its characteristic untouched. -/
theorem c10_inuse_only_on_power_delta :
    (∀ (cfg : Config) (s : DeviceState) (d : Fragment),
        ((applyUpdate cfg s d).state.cacheInUse ≠ s.cacheInUse
          ∨ countKind (applyUpdate cfg s d).notifs NotifKind.outletInUse ≠ 0)
        → ∃ p, d.power = some p ∧ s.cachePower ≠ some p)
    ∧ (∀ (cfg : Config) (s : DeviceState) (d : Fragment), d.power = none
        → (applyUpdate cfg s d).state.cacheInUse = s.cacheInUse
          ∧ countKind (applyUpdate cfg s d).notifs NotifKind.outletInUse = 0) := by
  have hz : ∀ (cfg : Config) (s : DeviceState) (d : Fragment),
      (applyUpdate cfg s d).state.cacheInUse = s.cacheInUse →
      countKind (applyUpdate cfg s d).notifs NotifKind.outletInUse = 0 := by
    intro cfg s d h
    rw [applyUpdate_count_outletInUse, h]
    simp
  constructor
  · intro cfg s d hchange
    by_contra hne
    push_neg at hne
    rcases hd : d.power with _ | p
    · have h1 := applyUpdate_inUse_power_none cfg s d hd
      rcases hchange with hc | hc
      · exact hc h1
      · exact hc (hz cfg s d h1)
    · have hp := hne p hd
      have h1 := applyUpdate_inUse_power_stale cfg s d p hd hp
      rcases hchange with hc | hc
      · exact hc h1
      · exact hc (hz cfg s d h1)
  · intro cfg s d hd
    have h1 := applyUpdate_inUse_power_none cfg s d hd
    exact ⟨h1, hz cfg s d h1⟩

/-- C10 witness: a power delta on a commanded-off device drops the in-use
flag, while an onoff-only fragment after the switch turns off leaves the
stale in-use flag true. -/
theorem c10_inuse_only_on_power_delta_witness :
    ((applyUpdate { inUsePowerThreshold := 0 }
        { cacheState := false, cachePower := some 0, cacheVoltage := none,
          cacheInUse := true, isToggleX := none }
        { onoff := none, power := some 1000, voltage := none }).state.cacheInUse
        ≠ ({ cacheState := false, cachePower := some 0, cacheVoltage := none,
             cacheInUse := true, isToggleX := none } : DeviceState).cacheInUse
      ∨ countKind (applyUpdate { inUsePowerThreshold := 0 }
          { cacheState := false, cachePower := some 0, cacheVoltage := none,
            cacheInUse := true, isToggleX := none }
          { onoff := none, power := some 1000, voltage := none }).notifs
          NotifKind.outletInUse ≠ 0)
    ∧ (∃ p, ({ onoff := none, power := some 1000, voltage := none } : Fragment).power
          = some p
        ∧ ({ cacheState := false, cachePower := some 0, cacheVoltage := none,
             cacheInUse := true, isToggleX := none } : DeviceState).cachePower
          ≠ some p)
    ∧ (({ onoff := some 0, power := none, voltage := none } : Fragment).power = none)
    ∧ ((applyUpdate { inUsePowerThreshold := 0 }
          { cacheState := true, cachePower := some 2000, cacheVoltage := none,
            cacheInUse := true, isToggleX := none }
          { onoff := some 0, power := none, voltage := none }).state.cacheInUse
        = ({ cacheState := true, cachePower := some 2000, cacheVoltage := none,
             cacheInUse := true, isToggleX := none } : DeviceState).cacheInUse
      ∧ countKind (applyUpdate { inUsePowerThreshold := 0 }
          { cacheState := true, cachePower := some 2000, cacheVoltage := none,
            cacheInUse := true, isToggleX := none }
          { onoff := some 0, power := none, voltage := none }).notifs
          NotifKind.outletInUse = 0) := by
  have hA : (applyUpdate { inUsePowerThreshold := 0 }
      { cacheState := false, cachePower := some 0, cacheVoltage := none,
        cacheInUse := true, isToggleX := none }
      { onoff := none, power := some 1000, voltage := none }).state.cacheInUse
      ≠ ({ cacheState := false, cachePower := some 0, cacheVoltage := none,
           cacheInUse := true, isToggleX := none } : DeviceState).cacheInUse := by
    rw [applyUpdate_cacheInUse, applyPower_cacheInUse]
    simp [applyOnoff, applyOnoff_cachePower]
  refine ⟨Or.inl hA,
    c10_inuse_only_on_power_delta.1 _ _ _ (Or.inl hA),
    rfl,
    c10_inuse_only_on_power_delta.2 _ _ _ rfl⟩

theorem consumption_mem_applyUpdate (cfg : Config) (s : DeviceState) (d : Fragment)
    (p : ℤ) (hd : d.power = some p) (h : s.cachePower ≠ some p) :
    Notif.consumption (scaledPower p) ∈ (applyUpdate cfg s d).notifs := by
  simp only [applyUpdate, hd]
  have hp1 : (applyOnoff s d.onoff).1.cachePower ≠ some p := by
    rw [applyOnoff_cachePower]
    exact h
  by_cases h2 : (applyOnoff s d.onoff).1.cacheInUse
      = ((applyOnoff s d.onoff).1.cacheState
        && decide (scaledPower p > cfg.inUsePowerThreshold))
  · rw [applyPower_some_ne_same _ _ _ hp1 h2]
    simp
  · rw [applyPower_some_ne_diff _ _ _ hp1 h2]
    simp

theorem voltage_mem_applyUpdate (cfg : Config) (s : DeviceState) (d : Fragment)
    (v : ℤ) (hd : d.voltage = some v) (h : s.cacheVoltage ≠ some v) :
    Notif.voltage (scaledVoltage v) ∈ (applyUpdate cfg s d).notifs := by
  simp only [applyUpdate, hd]
  have hv1 : (applyPower cfg (applyOnoff s d.onoff).1 d.power).1.cacheVoltage
      ≠ some v := by
    rw [applyPower_cacheVoltage, applyOnoff_cacheVoltage]
    exact h
  rw [applyVoltage_some_ne _ _ hv1]
  simp

theorem scaledPower_12000 : scaledPower 12000 = 12 := by
  rw [scaledPower, jsRound_eq_floor]
  norm_num

theorem scaledVoltage_2300 : scaledVoltage 2300 = 230 := by
  rw [scaledVoltage, jsRound_eq_floor]
  norm_num

/-- C1 counterexample: for the fragment with power 12000 and voltage 2300,
threshold 5, commanded-on true and stale cached power, voltage and
in-use values, the handler emits 12 W (not 1.20 W) and 230 V (not 23 V),
and the cached inUse flag ends true, not false. -/
theorem c1_counterexample :
    (applyUpdate { inUsePowerThreshold := 5 }
        { cacheState := true, cachePower := some 0, cacheVoltage := some 0,
          cacheInUse := true, isToggleX := none }
        { onoff := none, power := some 12000, voltage := some 2300 }).notifs
      = [Notif.consumption 12, Notif.voltage 230]
    ∧ (applyUpdate { inUsePowerThreshold := 5 }
        { cacheState := true, cachePower := some 0, cacheVoltage := some 0,
          cacheInUse := true, isToggleX := none }
        { onoff := none, power := some 12000, voltage := some 2300 }).state.cacheInUse
      = true
    ∧ (12 : ℚ) ≠ 120 / 100
    ∧ (230 : ℚ) ≠ 23 := by
  have hgt : decide (scaledPower 12000 > (5 : ℚ)) = true := by
    rw [decide_eq_true_eq, scaledPower_12000]
    norm_num
  refine ⟨?_, ?_, by norm_num, by norm_num⟩
  · simp [applyUpdate, applyOnoff, applyPower, applyVoltage, scaledPower_12000,
      scaledVoltage_2300, hgt, (show ¬((12 : ℚ) ≤ 5) by norm_num)]
  · rw [applyUpdate_cacheInUse, applyPower_cacheInUse]
    simp [applyOnoff, hgt, (show ¬((12 : ℚ) ≤ 5) by norm_num), scaledPower_12000,
      (show (5 : ℚ) < 12 by norm_num)]

/-- C1 (amended): for a power fragment with power 12000 and voltage 2300,
threshold 5 and commanded-on cache true (cached raw power and voltage
differing from the new values), the scaled power written to the
consumption characteristic is 12.00 W, which is greater than 5, so the
cached inUse value becomes true, and the scaled voltage written is
230.00 V. -/
theorem c1_power_fragment_scaling (s : DeviceState)
    (hOn : s.cacheState = true) (hp : s.cachePower ≠ some 12000)
    (hv : s.cacheVoltage ≠ some 2300) :
    scaledPower 12000 = 12 ∧ (5 : ℚ) < 12
    ∧ Notif.consumption 12 ∈ (applyUpdate { inUsePowerThreshold := 5 } s
        { onoff := none, power := some 12000, voltage := some 2300 }).notifs
    ∧ (applyUpdate { inUsePowerThreshold := 5 } s
        { onoff := none, power := some 12000, voltage := some 2300 }).state.cacheInUse
      = true
    ∧ scaledVoltage 2300 = 230
    ∧ Notif.voltage 230 ∈ (applyUpdate { inUsePowerThreshold := 5 } s
        { onoff := none, power := some 12000, voltage := some 2300 }).notifs := by
  have hgt : decide (scaledPower 12000 > (5 : ℚ)) = true := by
    rw [decide_eq_true_eq, scaledPower_12000]
    norm_num
  refine ⟨scaledPower_12000, by norm_num, ?_, ?_, scaledVoltage_2300, ?_⟩
  · rw [← scaledPower_12000]
    exact consumption_mem_applyUpdate _ _ _ _ rfl hp
  · rw [applyUpdate_cacheInUse, applyPower_cacheInUse]
    simp [applyOnoff, hp, hOn, hgt]
  · rw [← scaledVoltage_2300]
    exact voltage_mem_applyUpdate _ _ _ _ rfl hv

/-- C1 witness: the amended statement at a concrete cache. -/
theorem c1_power_fragment_scaling_witness :
    (({ cacheState := true, cachePower := some 0, cacheVoltage := some 0,
        cacheInUse := false, isToggleX := none } : DeviceState).cacheState = true)
    ∧ (({ cacheState := true, cachePower := some 0, cacheVoltage := some 0,
          cacheInUse := false, isToggleX := none } : DeviceState).cachePower
        ≠ some 12000)
    ∧ (({ cacheState := true, cachePower := some 0, cacheVoltage := some 0,
          cacheInUse := false, isToggleX := none } : DeviceState).cacheVoltage
        ≠ some 2300)
    ∧ (scaledPower 12000 = 12 ∧ (5 : ℚ) < 12
      ∧ Notif.consumption 12 ∈ (applyUpdate { inUsePowerThreshold := 5 }
          { cacheState := true, cachePower := some 0, cacheVoltage := some 0,
            cacheInUse := false, isToggleX := none }
          { onoff := none, power := some 12000, voltage := some 2300 }).notifs
      ∧ (applyUpdate { inUsePowerThreshold := 5 }
          { cacheState := true, cachePower := some 0, cacheVoltage := some 0,
            cacheInUse := false, isToggleX := none }
          { onoff := none, power := some 12000, voltage := some 2300 }
          ).state.cacheInUse = true
      ∧ scaledVoltage 2300 = 230
      ∧ Notif.voltage 230 ∈ (applyUpdate { inUsePowerThreshold := 5 }
          { cacheState := true, cachePower := some 0, cacheVoltage := some 0,
            cacheInUse := false, isToggleX := none }
          { onoff := none, power := some 12000, voltage := some 2300 }).notifs) :=
  ⟨rfl, by decide, by decide,
    c1_power_fragment_scaling _ rfl (by decide) (by decide)⟩

theorem scaledPower_1199_eq_1200 : scaledPower 1199 = scaledPower 1200 := by
  rw [scaledPower, scaledPower, jsRound_eq_floor, jsRound_eq_floor]
  norm_num [Int.floor_eq_iff]

/-- C2 counterexample: raw power readings 1199 and 1200 scale to the same
1.20 W, yet with 1199 cached the incoming 1200 still produces a
consumption notification (the no-op comparison is on the raw value, not
the scaled one) and the cache then holds the raw 1200; and the voltage
scaling is not raw divided by 100: raw 2300 is emitted as 230, not 23. -/
theorem c2_counterexample :
    scaledPower 1199 = scaledPower 1200
    ∧ (applyUpdate { inUsePowerThreshold := 0 }
        { cacheState := false, cachePower := some 1199, cacheVoltage := none,
          cacheInUse := false, isToggleX := none }
        { onoff := none, power := some 1200, voltage := none }).notifs ≠ []
    ∧ (applyUpdate { inUsePowerThreshold := 0 }
        { cacheState := false, cachePower := some 1199, cacheVoltage := none,
          cacheInUse := false, isToggleX := none }
        { onoff := none, power := some 1200, voltage := none }).state.cachePower
      = some 1200
    ∧ scaledVoltage 2300 = 230
    ∧ (2300 : ℚ) / 100 ≠ 230 := by
  refine ⟨scaledPower_1199_eq_1200, ?_, ?_, scaledVoltage_2300, by norm_num⟩
  · simp [applyUpdate, applyOnoff, applyPower, applyVoltage]
  · simp [applyUpdate_cachePower]

/-- C2 (amended): in applyUpdate the no-op comparison and the cache
store are on the raw power and voltage values; the scaling is applied
only to the value written to the characteristic, with power scaled as
raw divided by 1000 rounded to two decimals and voltage scaled as raw
divided by 10 rounded to two decimals (not raw divided by 100). -/
theorem c2_raw_compare_scaled_emit :
    (∀ (cfg : Config) (s : DeviceState) (d : Fragment) (p : ℤ), d.power = some p →
        (applyUpdate cfg s d).state.cachePower = some p
      ∧ countKind (applyUpdate cfg s d).notifs NotifKind.consumption
          = (if s.cachePower = some p then 0 else 1)
      ∧ (s.cachePower ≠ some p →
          Notif.consumption (scaledPower p) ∈ (applyUpdate cfg s d).notifs))
    ∧ (∀ (cfg : Config) (s : DeviceState) (d : Fragment) (v : ℤ), d.voltage = some v →
        (applyUpdate cfg s d).state.cacheVoltage = some v
      ∧ countKind (applyUpdate cfg s d).notifs NotifKind.voltage
          = (if s.cacheVoltage = some v then 0 else 1)
      ∧ (s.cacheVoltage ≠ some v →
          Notif.voltage (scaledVoltage v) ∈ (applyUpdate cfg s d).notifs))
    ∧ (∀ p : ℤ, scaledPower p = (jsRound ((p : ℚ) / 1000 * 100) : ℚ) / 100)
    ∧ (∀ v : ℤ, scaledVoltage v = (v : ℚ) / 10) := by
  refine ⟨?_, ?_, ?_, ?_⟩
  · intro cfg s d p hd
    refine ⟨?_, ?_, fun h => consumption_mem_applyUpdate cfg s d p hd h⟩
    · rw [applyUpdate_cachePower, hd]
    · rw [applyUpdate_count_consumption]
      by_cases h : s.cachePower = some p
      · simp [optDiffers, hd, h]
      · simp [optDiffers, hd, h]
  · intro cfg s d v hd
    refine ⟨?_, ?_, fun h => voltage_mem_applyUpdate cfg s d v hd h⟩
    · rw [applyUpdate_cacheVoltage, hd]
    · rw [applyUpdate_count_voltage]
      by_cases h : s.cacheVoltage = some v
      · simp [optDiffers, hd, h]
      · simp [optDiffers, hd, h]
  · intro p
    rw [scaledPower]
    have h10 : (p : ℚ) / 1000 * 100 = (p : ℚ) / 10 := by ring
    rw [h10]
  · intro v
    rw [scaledVoltage, jsRound_eq_floor]
    have h10 : ((v : ℚ) * 10) = ((10 * v : ℤ) : ℚ) := by push_cast; ring
    rw [h10, Int.floor_int_add]
    norm_num
    ring

/-- C2 witness: the amended statement at concrete raw readings. -/
theorem c2_raw_compare_scaled_emit_witness :
    (({ onoff := none, power := some 1200, voltage := none } : Fragment).power
        = some 1200)
    ∧ ((applyUpdate { inUsePowerThreshold := 0 }
          { cacheState := false, cachePower := some 1199, cacheVoltage := none,
            cacheInUse := false, isToggleX := none }
          { onoff := none, power := some 1200, voltage := none }).state.cachePower
        = some 1200
      ∧ countKind (applyUpdate { inUsePowerThreshold := 0 }
          { cacheState := false, cachePower := some 1199, cacheVoltage := none,
            cacheInUse := false, isToggleX := none }
          { onoff := none, power := some 1200, voltage := none }).notifs
          NotifKind.consumption
        = (if (({ cacheState := false, cachePower := some 1199, cacheVoltage := none,
                  cacheInUse := false, isToggleX := none } : DeviceState).cachePower
              = some 1200) then 0 else 1)
      ∧ (({ cacheState := false, cachePower := some 1199, cacheVoltage := none,
            cacheInUse := false, isToggleX := none } : DeviceState).cachePower
            ≠ some 1200 →
          Notif.consumption (scaledPower 1200) ∈
            (applyUpdate { inUsePowerThreshold := 0 }
              { cacheState := false, cachePower := some 1199, cacheVoltage := none,
                cacheInUse := false, isToggleX := none }
              { onoff := none, power := some 1200, voltage := none }).notifs)) :=
  ⟨rfl, c2_raw_compare_scaled_emit.1 { inUsePowerThreshold := 0 }
    { cacheState := false, cachePower := some 1199, cacheVoltage := none,
      cacheInUse := false, isToggleX := none }
    { onoff := none, power := some 1200, voltage := none } 1200 rfl⟩
